import Mathlib

/-!
Verification of the GeographicLib geodesic core (Geodesic.hpp, GeodesicLine.cpp,
Intersect.hpp) against its natural-language specification.

The embedding models C++ doubles as real numbers.  NaN returned as an in-band
failure value is modelled by Option.none.  Output reference parameters are
modelled by passing a record of prior values and returning the updated record.
Code whose implementation file is absent from the repository snapshot
(Geodesic.cpp, GeodesicLine.hpp) is modelled from the specification; every such
definition carries a doc comment starting with the words Modelled from the spec.
-/

noncomputable section

open Classical

namespace Constants

/-- Conversion factor from degrees to radians, Constants::degree(). -/
def degree : ℝ := Real.pi / 180

end Constants

namespace Math

/-- Math::hypot with overflow protection; mathematically sqrt of the sum of squares. -/
def hypot (x y : ℝ) : ℝ := Real.sqrt (x ^ 2 + y ^ 2)

/-- The two-argument arctangent std::atan2, with atan2 0 0 = 0.
The first argument is the y coordinate, the second the x coordinate. -/
def atan2 (y x : ℝ) : ℝ :=
  if 0 < x then Real.arctan (y / x)
  else if x < 0 then
    (if 0 ≤ y then Real.arctan (y / x) + Real.pi else Real.arctan (y / x) - Real.pi)
  else if 0 < y then Real.pi / 2
  else if y < 0 then -(Real.pi / 2)
  else 0

end Math

/-- Ellipsoid data held by the Geodesic object.  The Geodesic constructor body
is in Geodesic.cpp, which is not part of this snapshot, so the structure only
records the fields that GeodesicLine.cpp and Intersect.hpp read; the coefficient
tables A3x (6 entries), C3x (15 entries), C4x (21 entries) are indexed by
natural numbers. -/
structure Geodesic where
  a : ℝ
  r : ℝ
  f : ℝ
  f1 : ℝ
  e2 : ℝ
  ep2 : ℝ
  n : ℝ
  b : ℝ
  c2 : ℝ
  etol2 : ℝ
  A3x : ℕ → ℝ
  C3x : ℕ → ℝ
  C4x : ℕ → ℝ

/-- Geodesic::sq, the square helper. -/
def Geodesic.sq (x : ℝ) : ℝ := x * x

/-- Geodesic::maxit, the Newton iteration cap of the inverse solver
(Geodesic.hpp line 88). -/
def Geodesic.maxit : ℕ := 50

/-- Modelled from the spec: Geodesic::eps2 is declared in Geodesic.hpp but its
value lives in the missing Geodesic.cpp; it is the tiny positive pole guard,
the square root of the smallest positive normalised double. -/
def Geodesic.eps2 : ℝ := Real.sqrt ((2 : ℝ) ^ (-1022 : ℤ))

/-- Geodesic::AngNormalize (Geodesic.hpp lines 117 to 120): place an angle in
[-180, 180) assuming the input is in [-540, 540), by one conditional 360 shift. -/
def Geodesic.AngNormalize (x : ℝ) : ℝ :=
  if x ≥ 180 then x - 360 else if x < -180 then x + 360 else x

/-- Geodesic::AngRound (Geodesic.hpp lines 121 to 132): collapse angles with
absolute value below 1/16 onto the value 1/16 - (1/16 - abs x), preserving the
sign.  The volatile temporary in the C++ source only defeats compiler folding;
over exact reals the definition is the faithful transcription of the
expressions. -/
def Geodesic.AngRound (x : ℝ) : ℝ :=
  let z : ℝ := 1 / 16
  let y := |x|
  let y2 := if y < z then z - (z - y) else y
  if x < 0 then -y2 else y2

/-- Modelled from the spec: SinCosSeries (declared in Geodesic.hpp, body in the
missing Geodesic.cpp).  Clenshaw summation of sum of cj sin(2 j x) for sinp,
or of cj cos(2 j x) starting at j = 0 otherwise, via the stable recurrence
y1 = 2 cos(2x) y2 - y3 + cj iterated from the high index down.  The coefficient
list holds c1 .. cn for the sin case and c0 .. c(n-1) for the cos case. -/
def Geodesic.SinCosSeries (sinp : Bool) (sinx cosx : ℝ) (c : List ℝ) : ℝ :=
  let ar := 2 * (cosx - sinx) * (cosx + sinx)
  let y := c.foldr (fun cj p => (ar * p.1 - p.2 + cj, p.1)) ((0 : ℝ), (0 : ℝ))
  if sinp then 2 * sinx * cosx * y.1 else cosx * (y.1 - y.2)

/-- Modelled from the spec: A1m1f, the series A1(eps) - 1 at order 6
(Maxima-generated coefficients; body in the missing Geodesic.cpp). -/
def Geodesic.A1m1f (eps : ℝ) : ℝ :=
  let e2 := Geodesic.sq eps
  let t := e2 * (e2 * (e2 + 4) + 64) / 256
  (t + eps) / (1 - eps)

/-- Modelled from the spec: C1f, the order-6 coefficients c1 .. c6 of the
distance series (body in the missing Geodesic.cpp).  Every coefficient carries
an overall factor eps to the power of its index. -/
def Geodesic.C1f (eps : ℝ) : List ℝ :=
  let e2 := Geodesic.sq eps
  [ eps * ((6 - e2) * e2 - 16) / 32,
    eps ^ 2 * ((64 - 9 * e2) * e2 - 128) / 2048,
    eps ^ 3 * (9 * e2 - 16) / 768,
    eps ^ 4 * (3 * e2 - 5) / 512,
    eps ^ 5 * (-7) / 1280,
    eps ^ 6 * (-7) / 2048 ]

/-- Modelled from the spec: C1pf, the order-6 coefficients of the inverse
distance series used to convert scaled distance back to arc (body in the
missing Geodesic.cpp).  Every coefficient carries an overall factor eps to the
power of its index. -/
def Geodesic.C1pf (eps : ℝ) : List ℝ :=
  let e2 := Geodesic.sq eps
  [ eps * (e2 * (205 * e2 - 432) + 768) / 1536,
    eps ^ 2 * (e2 * (4005 * e2 - 4736) + 3840) / 12288,
    eps ^ 3 * (116 - 225 * e2) / 384,
    eps ^ 4 * (2695 - 7173 * e2) / 7680,
    eps ^ 5 * 3467 / 7680,
    eps ^ 6 * 38081 / 61440 ]

/-- Modelled from the spec: A2m1f, the series A2(eps) - 1 at order 6
(body in the missing Geodesic.cpp). -/
def Geodesic.A2m1f (eps : ℝ) : ℝ :=
  let e2 := Geodesic.sq eps
  let t := e2 * (e2 * (25 * e2 + 36) + 64) / 256
  (t - eps) / (1 + eps)

/-- Modelled from the spec: C2f, the order-6 coefficients of the reduced length
series (body in the missing Geodesic.cpp).  Every coefficient carries an
overall factor eps to the power of its index. -/
def Geodesic.C2f (eps : ℝ) : List ℝ :=
  let e2 := Geodesic.sq eps
  [ eps * (e2 * (e2 + 2) + 16) / 32,
    eps ^ 2 * (e2 * (35 * e2 + 64) + 384) / 2048,
    eps ^ 3 * (15 * e2 + 80) / 768,
    eps ^ 4 * (7 * e2 + 35) / 512,
    eps ^ 5 * 63 / 1280,
    eps ^ 6 * 77 / 2048 ]

/-- Modelled from the spec: A3f evaluates the polynomial in eps whose
coefficients are the precomputed table A3x (body in the missing Geodesic.cpp). -/
def Geodesic.A3f (g : Geodesic) (eps : ℝ) : ℝ :=
  g.A3x 0 + g.A3x 1 * eps + g.A3x 2 * eps ^ 2 + g.A3x 3 * eps ^ 3 +
    g.A3x 4 * eps ^ 4 + g.A3x 5 * eps ^ 5

/-- Modelled from the spec: C3f produces the five coefficients c1 .. c5, each a
polynomial in eps with an overall factor eps to the power of its index, read
from the triangular table C3x (body in the missing Geodesic.cpp). -/
def Geodesic.C3f (g : Geodesic) (eps : ℝ) : List ℝ :=
  [ g.C3x 0 * eps + g.C3x 1 * eps ^ 2 + g.C3x 2 * eps ^ 3 + g.C3x 3 * eps ^ 4 +
      g.C3x 4 * eps ^ 5,
    g.C3x 5 * eps ^ 2 + g.C3x 6 * eps ^ 3 + g.C3x 7 * eps ^ 4 + g.C3x 8 * eps ^ 5,
    g.C3x 9 * eps ^ 3 + g.C3x 10 * eps ^ 4 + g.C3x 11 * eps ^ 5,
    g.C3x 12 * eps ^ 4 + g.C3x 13 * eps ^ 5,
    g.C3x 14 * eps ^ 5 ]

/-- Modelled from the spec: C4f produces the six coefficients c0 .. c5, each a
polynomial in k2 read from the triangular table C4x (body in the missing
Geodesic.cpp). -/
def Geodesic.C4f (g : Geodesic) (k2 : ℝ) : List ℝ :=
  [ g.C4x 0 + g.C4x 1 * k2 + g.C4x 2 * k2 ^ 2 + g.C4x 3 * k2 ^ 3 +
      g.C4x 4 * k2 ^ 4 + g.C4x 5 * k2 ^ 5,
    g.C4x 6 + g.C4x 7 * k2 + g.C4x 8 * k2 ^ 2 + g.C4x 9 * k2 ^ 3 + g.C4x 10 * k2 ^ 4,
    g.C4x 11 + g.C4x 12 * k2 + g.C4x 13 * k2 ^ 2 + g.C4x 14 * k2 ^ 3,
    g.C4x 15 + g.C4x 16 * k2 + g.C4x 17 * k2 ^ 2,
    g.C4x 18 + g.C4x 19 * k2,
    g.C4x 20 ]

/-- Geodesic::captype value CAP_NONE (Geodesic.hpp lines 152 to 161). -/
def Geodesic.CAP_NONE : ℕ := 0

/-- Geodesic::captype value CAP_C1. -/
def Geodesic.CAP_C1 : ℕ := 1

/-- Geodesic::captype value CAP_C1p. -/
def Geodesic.CAP_C1p : ℕ := 2

/-- Geodesic::captype value CAP_C2. -/
def Geodesic.CAP_C2 : ℕ := 4

/-- Geodesic::captype value CAP_C3. -/
def Geodesic.CAP_C3 : ℕ := 8

/-- Geodesic::captype value CAP_C4. -/
def Geodesic.CAP_C4 : ℕ := 16

/-- Geodesic::captype value CAP_ALL. -/
def Geodesic.CAP_ALL : ℕ := 0x1F

/-- Geodesic::captype value OUT_ALL. -/
def Geodesic.OUT_ALL : ℕ := 0x7F80

/-- Geodesic::mask value LATITUDE (Geodesic.hpp lines 167 to 178). -/
def Geodesic.LATITUDE : ℕ := 2 ^ 7 ||| Geodesic.CAP_NONE

/-- Geodesic::mask value LONGITUDE. -/
def Geodesic.LONGITUDE : ℕ := 2 ^ 8 ||| Geodesic.CAP_C3

/-- Geodesic::mask value AZIMUTH. -/
def Geodesic.AZIMUTH : ℕ := 2 ^ 9 ||| Geodesic.CAP_NONE

/-- Geodesic::mask value DISTANCE. -/
def Geodesic.DISTANCE : ℕ := 2 ^ 10 ||| Geodesic.CAP_C1

/-- Geodesic::mask value DISTANCE_IN. -/
def Geodesic.DISTANCE_IN : ℕ := 2 ^ 11 ||| Geodesic.CAP_C1 ||| Geodesic.CAP_C1p

/-- Geodesic::mask value REDUCEDLENGTH. -/
def Geodesic.REDUCEDLENGTH : ℕ := 2 ^ 12 ||| Geodesic.CAP_C1 ||| Geodesic.CAP_C2

/-- Geodesic::mask value GEODESICSCALE. -/
def Geodesic.GEODESICSCALE : ℕ := 2 ^ 13 ||| Geodesic.CAP_C1 ||| Geodesic.CAP_C2

/-- Geodesic::mask value AREA. -/
def Geodesic.AREA : ℕ := 2 ^ 14 ||| Geodesic.CAP_C4

/-- Geodesic::mask value ALL. -/
def Geodesic.ALL : ℕ := Geodesic.OUT_ALL ||| Geodesic.CAP_ALL

/-- Reduced-latitude sine before normalisation, as computed by the
GeodesicLine constructor (GeodesicLine.cpp line 67): sbet = f1 sin(phi). -/
def sbeta (f1 lat : ℝ) : ℝ := f1 * Real.sin (lat * Constants.degree)

/-- Reduced-latitude cosine before normalisation, as computed by the
GeodesicLine constructor (GeodesicLine.cpp line 68): cos(phi), except that at
the poles it is forced to the positive guard eps2 instead of 0. -/
def cbeta (lat : ℝ) : ℝ :=
  if |lat| = 90 then Geodesic.eps2 else Real.cos (lat * Constants.degree)

/-- Normalised reduced-latitude sine, after Geodesic::SinCosNorm. -/
def sbetaN (f1 lat : ℝ) : ℝ := sbeta f1 lat / Math.hypot (sbeta f1 lat) (cbeta lat)

/-- Normalised reduced-latitude cosine, after Geodesic::SinCosNorm. -/
def cbetaN (f1 lat : ℝ) : ℝ := cbeta lat / Math.hypot (sbeta f1 lat) (cbeta lat)

/-- State of a GeodesicLine.  Fields mirror the members set by the constructor
in GeodesicLine.cpp; coefficient arrays are lists (C1a, C1pa, C2a hold c1..c6,
C3a holds c1..c5, C4a holds c0..c5).  Fields whose guard capability is absent
are left uninitialised by the C++ constructor; the model stores 0 there. -/
structure GeodesicLine where
  a : ℝ
  r : ℝ
  b : ℝ
  c2 : ℝ
  f1 : ℝ
  caps : ℕ
  lat1 : ℝ
  lon1 : ℝ
  azi1 : ℝ
  salp1 : ℝ
  calp1 : ℝ
  salp0 : ℝ
  calp0 : ℝ
  ssig1 : ℝ
  csig1 : ℝ
  somg1 : ℝ
  comg1 : ℝ
  k2 : ℝ
  A1m1 : ℝ
  C1a : List ℝ
  B11 : ℝ
  stau1 : ℝ
  ctau1 : ℝ
  C1pa : List ℝ
  A2m1 : ℝ
  C2a : List ℝ
  B21 : ℝ
  C3a : List ℝ
  A3c : ℝ
  B31 : ℝ
  C4a : List ℝ
  A4 : ℝ
  B41 : ℝ

/-- Modelled from the spec: GeodesicLine::Init tests whether the line was
initialised; the default-constructed line has an empty capability mask
(GeodesicLine.hpp is not in this snapshot). -/
def GeodesicLine.Init (L : GeodesicLine) : Prop := L.caps ≠ 0

/-- Modelled from the spec: the default-constructed, uninitialised
GeodesicLine (GeodesicLine.hpp is not in this snapshot); its capability mask
is empty. -/
def GeodesicLine.uninit : GeodesicLine :=
  { a := 0, r := 0, b := 0, c2 := 0, f1 := 0, caps := 0,
    lat1 := 0, lon1 := 0, azi1 := 0, salp1 := 0, calp1 := 0,
    salp0 := 0, calp0 := 0, ssig1 := 0, csig1 := 0, somg1 := 0, comg1 := 0,
    k2 := 0, A1m1 := 0, C1a := [], B11 := 0, stau1 := 0, ctau1 := 0,
    C1pa := [], A2m1 := 0, C2a := [], B21 := 0, C3a := [], A3c := 0,
    B31 := 0, C4a := [], A4 := 0, B41 := 0 }

/-- The GeodesicLine constructor (GeodesicLine.cpp lines 40 to 126).
Latitude and azimuth capabilities are always added to the requested mask.
Blocks guarded by CAP_C1, CAP_C1p, CAP_C2, CAP_C3, CAP_C4 are computed only
when the mask demands them, as in the source. -/
def mkGeodesicLine (g : Geodesic) (lat1 lon1 azi1 : ℝ) (caps : ℕ) : GeodesicLine :=
  let capsA := caps ||| Geodesic.LATITUDE ||| Geodesic.AZIMUTH
  let azi1n := Geodesic.AngRound (Geodesic.AngNormalize azi1)
  let lon1n := Geodesic.AngNormalize lon1
  let alp1 := azi1n * Constants.degree
  let salp1 := if azi1n = -180 then 0 else Real.sin alp1
  let calp1 := if |azi1n| = 90 then 0 else Real.cos alp1
  let sbet1 := sbetaN g.f1 lat1
  let cbet1 := cbetaN g.f1 lat1
  let salp0 := salp1 * cbet1
  let calp0 := Math.hypot calp1 (salp1 * sbet1)
  let ssig1r := sbet1
  let somg1r := salp0 * sbet1
  let csig1r := if sbet1 ≠ 0 ∨ calp1 ≠ 0 then cbet1 * calp1 else 1
  let ssig1 := ssig1r / Math.hypot ssig1r csig1r
  let csig1 := csig1r / Math.hypot ssig1r csig1r
  let somg1 := somg1r / Math.hypot somg1r csig1r
  let comg1 := csig1r / Math.hypot somg1r csig1r
  let k2 := Geodesic.sq calp0 * g.ep2
  let eps := k2 / (2 * (1 + Real.sqrt (1 + k2)) + k2)
  let A1m1 := if capsA &&& Geodesic.CAP_C1 ≠ 0 then Geodesic.A1m1f eps else 0
  let C1a := if capsA &&& Geodesic.CAP_C1 ≠ 0 then Geodesic.C1f eps else []
  let B11 := if capsA &&& Geodesic.CAP_C1 ≠ 0 then
    Geodesic.SinCosSeries true ssig1 csig1 C1a else 0
  let stau1 := if capsA &&& Geodesic.CAP_C1 ≠ 0 then
    ssig1 * Real.cos B11 + csig1 * Real.sin B11 else 0
  let ctau1 := if capsA &&& Geodesic.CAP_C1 ≠ 0 then
    csig1 * Real.cos B11 - ssig1 * Real.sin B11 else 0
  let C1pa := if capsA &&& Geodesic.CAP_C1p ≠ 0 then Geodesic.C1pf eps else []
  let A2m1 := if capsA &&& Geodesic.CAP_C2 ≠ 0 then Geodesic.A2m1f eps else 0
  let C2a := if capsA &&& Geodesic.CAP_C2 ≠ 0 then Geodesic.C2f eps else []
  let B21 := if capsA &&& Geodesic.CAP_C2 ≠ 0 then
    Geodesic.SinCosSeries true ssig1 csig1 C2a else 0
  let C3a := if capsA &&& Geodesic.CAP_C3 ≠ 0 then Geodesic.C3f g eps else []
  let A3c := if capsA &&& Geodesic.CAP_C3 ≠ 0 then
    -g.f * salp0 * Geodesic.A3f g eps else 0
  let B31 := if capsA &&& Geodesic.CAP_C3 ≠ 0 then
    Geodesic.SinCosSeries true ssig1 csig1 C3a else 0
  let C4a := if capsA &&& Geodesic.CAP_C4 ≠ 0 then Geodesic.C4f g k2 else []
  let A4 := if capsA &&& Geodesic.CAP_C4 ≠ 0 then
    Geodesic.sq g.a * calp0 * salp0 * g.e2 else 0
  let B41 := if capsA &&& Geodesic.CAP_C4 ≠ 0 then
    Geodesic.SinCosSeries false ssig1 csig1 C4a else 0;
  { a := g.a, r := g.r, b := g.b, c2 := g.c2, f1 := g.f1, caps := capsA,
    lat1 := lat1, lon1 := lon1n, azi1 := azi1n,
    salp1 := salp1, calp1 := calp1, salp0 := salp0, calp0 := calp0,
    ssig1 := ssig1, csig1 := csig1, somg1 := somg1, comg1 := comg1,
    k2 := k2, A1m1 := A1m1, C1a := C1a, B11 := B11,
    stau1 := stau1, ctau1 := ctau1, C1pa := C1pa,
    A2m1 := A2m1, C2a := C2a, B21 := B21,
    C3a := C3a, A3c := A3c, B31 := B31,
    C4a := C4a, A4 := A4, B41 := B41 }

/-- The eight output reference parameters of GeodesicLine::Position. -/
structure PosOut where
  lat2 : ℝ
  lon2 : ℝ
  azi2 : ℝ
  s12 : ℝ
  m12 : ℝ
  M12 : ℝ
  M21 : ℝ
  S12 : ℝ

/-- GeodesicLine::Position (GeodesicLine.cpp lines 128 to 249).  The prior
values of the output reference parameters are passed as a PosOut record and
the possibly updated record is returned together with the return value; the
NaN returned on the uninitialised or impossible-distance early exit is
modelled as Option.none, and on that early exit the outputs are returned
unchanged. -/
def GeodesicLine.Position (L : GeodesicLine) (arcmode : Bool) (a12 : ℝ)
    (outmask0 : ℕ) (o : PosOut) : PosOut × Option ℝ :=
  let outmask := outmask0 &&& L.caps &&& Geodesic.OUT_ALL
  if L.Init ∧ (arcmode = true ∨ L.caps &&& Geodesic.DISTANCE_IN &&& Geodesic.OUT_ALL ≠ 0)
  then
    let B12f := if arcmode then (0 : ℝ) else
      (let tau12 := a12 / (L.b * (1 + L.A1m1));
       let s := Real.sin tau12;
       let c := Real.cos tau12;
       -(Geodesic.SinCosSeries true (L.stau1 * c + L.ctau1 * s)
         (L.ctau1 * c - L.stau1 * s) L.C1pa))
    let sig12 := if arcmode then a12 * Constants.degree
      else a12 / (L.b * (1 + L.A1m1)) - (B12f - L.B11)
    let s12a := |a12| - 180 * ((⌊|a12| / 180⌋ : ℤ) : ℝ)
    let ssig12 := if arcmode = true ∧ s12a = 0 then 0 else Real.sin sig12
    let csig12 := if arcmode = true ∧ s12a = 90 then 0 else Real.cos sig12
    let ssig2 := L.ssig1 * csig12 + L.csig1 * ssig12
    let csig2 := L.csig1 * csig12 - L.ssig1 * ssig12
    let B12 := if arcmode = true ∧
        outmask &&& (Geodesic.DISTANCE ||| Geodesic.REDUCEDLENGTH ||| Geodesic.GEODESICSCALE) ≠ 0
      then Geodesic.SinCosSeries true ssig2 csig2 L.C1a else B12f
    let AB1 := if outmask &&& (Geodesic.DISTANCE ||| Geodesic.REDUCEDLENGTH ||| Geodesic.GEODESICSCALE) ≠ 0
      then (1 + L.A1m1) * (B12 - L.B11) else 0
    let sbet2 := L.calp0 * ssig2
    let cbet2h := Math.hypot L.salp0 (L.calp0 * csig2)
    let cbet2 := if cbet2h = 0 then Geodesic.eps2 else cbet2h
    let csig2d := if cbet2h = 0 then Geodesic.eps2 else csig2
    let somg2 := L.salp0 * ssig2
    let comg2 := csig2d
    let salp2 := L.salp0
    let calp2 := L.calp0 * csig2d
    let omg12 := Math.atan2 (somg2 * L.comg1 - comg2 * L.somg1)
      (comg2 * L.comg1 + somg2 * L.somg1)
    let s12v := if arcmode then L.b * ((1 + L.A1m1) * sig12 + AB1) else a12
    let lam12 := omg12 + L.A3c *
      (sig12 + (Geodesic.SinCosSeries true ssig2 csig2d L.C3a - L.B31))
    let lon12a := lam12 / Constants.degree
    let lon12 := lon12a - 360 * ((⌊lon12a / 360 + 1 / 2⌋ : ℤ) : ℝ)
    let lon2v := Geodesic.AngNormalize (L.lon1 + lon12)
    let lat2v := Math.atan2 sbet2 (L.f1 * cbet2) / Constants.degree
    let azi2v := 0 - Math.atan2 (-salp2) calp2 / Constants.degree
    let w1 := Real.sqrt (1 + L.k2 * Geodesic.sq L.ssig1)
    let w2 := Real.sqrt (1 + L.k2 * Geodesic.sq ssig2)
    let B22 := Geodesic.SinCosSeries true ssig2 csig2d L.C2a
    let AB2 := (1 + L.A2m1) * (B22 - L.B21)
    let J12 := (L.A1m1 - L.A2m1) * sig12 + (AB1 - AB2)
    let m12v := L.b * ((w2 * (L.csig1 * ssig2) - w1 * (L.ssig1 * csig2d))
      - L.csig1 * csig2d * J12)
    let M12v := csig12 + (L.k2 * (Geodesic.sq ssig2 - Geodesic.sq L.ssig1) * ssig2 / (w1 + w2)
      - csig2d * J12) * L.ssig1 / w1
    let M21v := csig12 - (L.k2 * (Geodesic.sq ssig2 - Geodesic.sq L.ssig1) * L.ssig1 / (w1 + w2)
      - L.csig1 * J12) * ssig2 / w2
    let B42 := Geodesic.SinCosSeries false ssig2 csig2d L.C4a
    let salp12r := salp2 * L.calp1 - calp2 * L.salp1
    let calp12r := calp2 * L.calp1 + salp2 * L.salp1
    let salp12 := if salp12r = 0 ∧ calp12r < 0 then Geodesic.eps2 * L.calp1 else salp12r
    let calp12 := if salp12r = 0 ∧ calp12r < 0 then -1 else calp12r
    let S12v := L.c2 * Math.atan2 salp12 calp12 + L.A4 * (B42 - L.B41);
    ({ lat2 := if outmask &&& Geodesic.LATITUDE ≠ 0 then lat2v else o.lat2,
       lon2 := if outmask &&& Geodesic.LONGITUDE ≠ 0 then lon2v else o.lon2,
       azi2 := if outmask &&& Geodesic.AZIMUTH ≠ 0 then azi2v else o.azi2,
       s12 := if outmask &&& Geodesic.DISTANCE ≠ 0 then s12v else o.s12,
       m12 := if outmask &&& Geodesic.REDUCEDLENGTH ≠ 0 then m12v else o.m12,
       M12 := if outmask &&& Geodesic.GEODESICSCALE ≠ 0 then M12v else o.M12,
       M21 := if outmask &&& Geodesic.GEODESICSCALE ≠ 0 then M21v else o.M21,
       S12 := if outmask &&& Geodesic.AREA ≠ 0 then S12v else o.S12 },
     some (if arcmode then a12 else sig12 / Constants.degree))
  else (o, none)

/-- The internal spherical arc sigma12 that Position computes when the input
a12 is a distance (GeodesicLine.cpp lines 150 to 159): the scaled distance
tau12 corrected by the inverse series C1p. -/
def positionSig12 (L : GeodesicLine) (a12 : ℝ) : ℝ :=
  a12 / (L.b * (1 + L.A1m1)) -
    (-(Geodesic.SinCosSeries true
        (L.stau1 * Real.cos (a12 / (L.b * (1 + L.A1m1))) +
          L.ctau1 * Real.sin (a12 / (L.b * (1 + L.A1m1))))
        (L.ctau1 * Real.cos (a12 / (L.b * (1 + L.A1m1))) -
          L.stau1 * Real.sin (a12 / (L.b * (1 + L.A1m1))))
        L.C1pa) - L.B11)

/-- Result record of Geodesic::Inverse: the returned arc length a12 together
with the output reference parameters (Geodesic.hpp lines 269 to 273). -/
structure InverseResult where
  a12 : ℝ
  s12 : ℝ
  azi1 : ℝ
  azi2 : ℝ
  m12 : ℝ
  M12 : ℝ
  M21 : ℝ
  S12 : ℝ

/-- Modelled from the spec: reversal of an azimuth, a 180 degree turn
renormalised to [-180, 180). -/
def reverseAzimuth (azi : ℝ) : ℝ := Geodesic.AngNormalize (azi + 180)

/-- Modelled from the spec: the outcome of the Newton iteration of the inverse
solver (body in the missing Geodesic.cpp): whether it converged within
Geodesic.maxit steps, the number of steps used, and the raw quantities
computed for the final iterate. -/
structure NewtonOutcome where
  converged : Bool
  steps : ℕ
  raw : InverseResult

/-- Modelled from the spec: the final packaging of Geodesic::Inverse (body in
the missing Geodesic.cpp; contract on Geodesic.hpp lines 263 to 267).  On
convergence the raw results are returned; on failure to converge the distances
s12, m12 and the returned arc a12 are negated and the azimuths reversed.  The
function is total: the failure signal is in band, nothing is thrown. -/
def inverseFinal (n : NewtonOutcome) : InverseResult :=
  if n.converged then n.raw
  else
    { a12 := -n.raw.a12, s12 := -n.raw.s12, m12 := -n.raw.m12,
      azi1 := reverseAzimuth n.raw.azi1, azi2 := reverseAzimuth n.raw.azi2,
      M12 := n.raw.M12, M21 := n.raw.M21, S12 := n.raw.S12 }

/-- Canonical form of an inverse problem after step 1 of the inverse solver:
canonical latitudes, the longitude difference reduced to [0, 180], and the
bookkeeping needed to undo the reduction. -/
structure CanonInverse where
  lat1c : ℝ
  lat2c : ℝ
  lam12 : ℝ
  lonsign : ℝ
  latsign : ℝ
  swapped : Prop

/-- Modelled from the spec: step 1 of the inverse solver (body in the missing
Geodesic.cpp): reduce the longitude difference to [0, 180] recording its sign,
swap the points so the first has the larger latitude magnitude, and negate the
latitudes so the first canonical latitude is not positive. -/
def inverseCanon (lat1 lon1 lat2 lon2 : ℝ) : CanonInverse :=
  let lon12n := Geodesic.AngNormalize
    (Geodesic.AngNormalize lon2 - Geodesic.AngNormalize lon1)
  let lonsign : ℝ := if 0 ≤ lon12n then 1 else -1
  let swapped := |lat1| < |lat2|
  let latA := if swapped then lat2 else lat1
  let latB := if swapped then lat1 else lat2
  let latsign : ℝ := if latA < 0 then 1 else -1;
  { lat1c := latsign * latA, lat2c := latsign * latB, lam12 := lonsign * lon12n,
    lonsign := lonsign, latsign := latsign, swapped := swapped }

/-- Modelled from the spec: sine of the first azimuth of the canonical inverse
problem, taken from the spherical analogue (step 4 of the inverse solver; body
in the missing Geodesic.cpp). -/
def coreSalp1 (f1 _lat1c lat2c lam : ℝ) : ℝ :=
  cbetaN f1 lat2c * Real.sin (lam * Constants.degree)

/-- Modelled from the spec: cosine of the first azimuth of the canonical
inverse problem, from the spherical analogue. -/
def coreCalp1 (f1 lat1c lat2c lam : ℝ) : ℝ :=
  sbetaN f1 lat2c * cbetaN f1 lat1c -
    cbetaN f1 lat2c * sbetaN f1 lat1c * Real.cos (lam * Constants.degree)

/-- Modelled from the spec: sine of the second azimuth of the canonical
inverse problem, from the spherical analogue. -/
def coreSalp2 (f1 lat1c _lat2c lam : ℝ) : ℝ :=
  cbetaN f1 lat1c * Real.sin (lam * Constants.degree)

/-- Modelled from the spec: cosine of the second azimuth of the canonical
inverse problem, from the spherical analogue. -/
def coreCalp2 (f1 lat1c lat2c lam : ℝ) : ℝ :=
  sbetaN f1 lat2c * cbetaN f1 lat1c * Real.cos (lam * Constants.degree) -
    cbetaN f1 lat2c * sbetaN f1 lat1c

/-- Modelled from the spec: the arc length of the canonical inverse problem on
the auxiliary sphere. -/
def coreSig12 (f1 lat1c lat2c lam : ℝ) : ℝ :=
  Math.atan2
    (Math.hypot (coreSalp1 f1 lat1c lat2c lam) (coreCalp1 f1 lat1c lat2c lam))
    (sbetaN f1 lat1c * sbetaN f1 lat2c +
      cbetaN f1 lat1c * cbetaN f1 lat2c * Real.cos (lam * Constants.degree))

/-- Modelled from the spec: the first azimuth reported by the inverse solver,
obtained from the canonical solution by undoing the sign flips of the
canonicalisation; for a swapped call the direction of travel is reversed, so
the azimuth at the calling start point is the reverse of the second canonical
azimuth. -/
def inverseAzi1 (g : Geodesic) (c : CanonInverse) : ℝ :=
  0 - Math.atan2
    (-(if c.swapped then c.lonsign * coreSalp2 g.f1 c.lat1c c.lat2c c.lam12
       else c.lonsign * coreSalp1 g.f1 c.lat1c c.lat2c c.lam12))
    (if c.swapped then -(c.latsign * coreCalp2 g.f1 c.lat1c c.lat2c c.lam12)
     else c.latsign * coreCalp1 g.f1 c.lat1c c.lat2c c.lam12) / Constants.degree

/-- Modelled from the spec: the second azimuth reported by the inverse
solver, with the same undo bookkeeping as the first. -/
def inverseAzi2 (g : Geodesic) (c : CanonInverse) : ℝ :=
  0 - Math.atan2
    (-(if c.swapped then c.lonsign * coreSalp1 g.f1 c.lat1c c.lat2c c.lam12
       else c.lonsign * coreSalp2 g.f1 c.lat1c c.lat2c c.lam12))
    (if c.swapped then -(c.latsign * coreCalp1 g.f1 c.lat1c c.lat2c c.lam12)
     else c.latsign * coreCalp2 g.f1 c.lat1c c.lat2c c.lam12) / Constants.degree

/-- Modelled from the spec: Geodesic::Inverse (body in the missing
Geodesic.cpp).  The input is canonicalised by step 1 of the solver, the
canonical problem is solved (modelled by its spherical analogue, the exact
solution for f = 0 and the Newton starting point otherwise), and the sign
flips of the canonicalisation are undone on the azimuths at the end; for a
swapped call the undo also reverses the direction of travel.  The area series
is not modelled: S12 is fixed at 0 and no claim reads it. -/
def InverseModel (g : Geodesic) (lat1 lon1 lat2 lon2 : ℝ) : InverseResult :=
  let c := inverseCanon lat1 lon1 lat2 lon2
  let sig12 := coreSig12 g.f1 c.lat1c c.lat2c c.lam12;
  { a12 := sig12 / Constants.degree,
    s12 := g.b * sig12,
    azi1 := inverseAzi1 g c,
    azi2 := inverseAzi2 g c,
    m12 := g.b * Real.sin sig12,
    M12 := Real.cos sig12,
    M21 := Real.cos sig12,
    S12 := 0 }

/-- Concrete ellipsoid for witnesses: the unit sphere, with the field values
the Geodesic constructor derives for a = 1 and f = 0. -/
def sphereUnit : Geodesic :=
  { a := 1, r := 0, f := 0, f1 := 1, e2 := 0, ep2 := 0, n := 0, b := 1, c2 := 1,
    etol2 := 0, A3x := fun _ => 0, C3x := fun _ => 0, C4x := fun _ => 0 }

/-- Concrete prior values of the output parameters used by witness calls. -/
def oZero : PosOut :=
  { lat2 := 0, lon2 := 0, azi2 := 0, s12 := 0, m12 := 0, M12 := 0, M21 := 0,
    S12 := 0 }

/-- Concrete GeodesicLine for the C1 counterexample: the equatorial line of
the unit sphere, starting at latitude 0, longitude 0 with azimuth 90, with the
DISTANCE capability requested. -/
def lineW : GeodesicLine := mkGeodesicLine sphereUnit 0 0 90 Geodesic.DISTANCE

/-- Intersect::Point and the internal Intersect::XPoint: a pair of signed
displacements along the two geodesics plus a coincidence code. -/
structure Intersect.XPoint where
  x : ℝ
  y : ℝ
  c : ℤ

/-- Intersect::d1, the L1 distance helper (Intersect.hpp lines 101 to 102). -/
def Intersect.d1 (x y : ℝ) : ℝ := |x| + |y|

/-- Intersect::SetComp, the fuzzy comparator used for set insertion; it holds
the slop used for equality tests (Intersect.hpp lines 131 to 142). -/
structure Intersect.SetComp where
  slop : ℝ

/-- Intersect::SetComp::eq: two points test equal when the L1 distance between
them is at most the slop. -/
def Intersect.SetComp.eq (C : Intersect.SetComp) (p q : Intersect.XPoint) : Prop :=
  Intersect.d1 (p.x - q.x) (p.y - q.y) ≤ C.slop

/-- Intersect::SetComp::operator(): the strict comparison used by the set:
p is ordered before q when they do not test equal and p is lexicographically
smaller. -/
def Intersect.SetComp.lt (C : Intersect.SetComp) (p q : Intersect.XPoint) : Prop :=
  ¬ C.eq p q ∧ (if p.x ≠ q.x then p.x < q.x else p.y < q.y)

/-- Intersect::segmentmode (Intersect.hpp lines 200 to 203): classify the
position of an intersection point relative to the two segments of lengths
sx and sy. -/
def Intersect.segmentmode (sx sy : ℝ) (p : Intersect.XPoint) : ℤ :=
  (if p.x < 0 then -1 else if p.x ≤ sx then 0 else 1) * 3 +
    (if p.y < 0 then -1 else if p.y ≤ sy then 0 else 1)

-- Theorems.

/-- Claim C5: for every x in [-540, 540), AngNormalize x lies in [-180, 180)
and differs from x by -360, 0 or 360. -/
theorem C5_angnormalize_range (x : ℝ) (h1 : -540 ≤ x) (h2 : x < 540) :
    (-180 ≤ Geodesic.AngNormalize x ∧ Geodesic.AngNormalize x < 180) ∧
    (Geodesic.AngNormalize x - x = -360 ∨ Geodesic.AngNormalize x - x = 0 ∨
      Geodesic.AngNormalize x - x = 360) := by
  unfold Geodesic.AngNormalize
  split_ifs with ha hb
  · exact ⟨⟨by linarith, by linarith⟩, Or.inl (by ring)⟩
  · exact ⟨⟨by linarith, by linarith⟩, Or.inr (Or.inr (by ring))⟩
  · exact ⟨⟨by linarith, by linarith⟩, Or.inr (Or.inl (by ring))⟩

/-- Witness for C5 at the concrete input x = 300. -/
theorem C5_angnormalize_range_witness :
    ((-540 : ℝ) ≤ 300 ∧ (300 : ℝ) < 540) ∧
    ((-180 ≤ Geodesic.AngNormalize 300 ∧ Geodesic.AngNormalize 300 < 180) ∧
      (Geodesic.AngNormalize 300 - 300 = -360 ∨
        Geodesic.AngNormalize 300 - 300 = 0 ∨
        Geodesic.AngNormalize 300 - 300 = 360)) :=
  ⟨⟨by norm_num, by norm_num⟩,
    C5_angnormalize_range 300 (by norm_num) (by norm_num)⟩

/-- Claim C7: segmentmode sx sy p equals 3 kx + ky where kx is -1, 0 or 1
according to whether the x displacement is before, inside or past [0, sx], and
likewise ky; it is 0 exactly when the point lies inside both segments. -/
theorem C7_segmentmode_code (sx sy : ℝ) (p : Intersect.XPoint) :
    Intersect.segmentmode sx sy p =
      3 * (if p.x < 0 then -1 else if 0 ≤ p.x ∧ p.x ≤ sx then 0 else 1) +
        (if p.y < 0 then -1 else if 0 ≤ p.y ∧ p.y ≤ sy then 0 else 1) ∧
    (Intersect.segmentmode sx sy p = 0 ↔
      (0 ≤ p.x ∧ p.x ≤ sx) ∧ (0 ≤ p.y ∧ p.y ≤ sy)) := by
  have hcx : ∀ s t : ℝ, (if t < 0 then (-1 : ℤ) else if t ≤ s then 0 else 1) =
      (if t < 0 then -1 else if 0 ≤ t ∧ t ≤ s then 0 else 1) := by
    intro s t
    rcases lt_or_le t 0 with h | h
    · simp [h]
    · simp [not_lt.mpr h, h]
  have hzero : ∀ s t : ℝ,
      ((if t < 0 then (-1 : ℤ) else if t ≤ s then 0 else 1) = 0 ↔
        (0 ≤ t ∧ t ≤ s)) := by
    intro s t
    rcases lt_or_le t 0 with h | h
    · rw [if_pos h]
      constructor
      · intro hc; exact absurd hc (by norm_num)
      · rintro ⟨h1, h2⟩; linarith
    · rcases le_or_lt t s with h2 | h2
      · rw [if_neg (not_lt.mpr h), if_pos h2]
        simp [h, h2]
      · rw [if_neg (not_lt.mpr h), if_neg (not_le.mpr h2)]
        constructor
        · intro hc; exact absurd hc (by norm_num)
        · rintro ⟨h1, h3⟩; linarith
  have hxr : (if p.x < 0 then (-1 : ℤ) else if p.x ≤ sx then 0 else 1) = -1 ∨
      (if p.x < 0 then (-1 : ℤ) else if p.x ≤ sx then 0 else 1) = 0 ∨
      (if p.x < 0 then (-1 : ℤ) else if p.x ≤ sx then 0 else 1) = 1 := by
    split_ifs <;> simp
  have hyr : (if p.y < 0 then (-1 : ℤ) else if p.y ≤ sy then 0 else 1) = -1 ∨
      (if p.y < 0 then (-1 : ℤ) else if p.y ≤ sy then 0 else 1) = 0 ∨
      (if p.y < 0 then (-1 : ℤ) else if p.y ≤ sy then 0 else 1) = 1 := by
    split_ifs <;> simp
  constructor
  · unfold Intersect.segmentmode
    rw [hcx sx p.x, hcx sy p.y]; ring
  · unfold Intersect.segmentmode
    constructor
    · intro h0
      rcases hxr with ha | ha | ha <;> rcases hyr with hb | hb | hb <;>
        rw [ha, hb] at h0 <;>
        first
          | exact ⟨(hzero sx p.x).mp ha, (hzero sy p.y).mp hb⟩
          | norm_num at h0
    · rintro ⟨hxin, hyin⟩
      rw [(hzero sx p.x).mpr hxin, (hzero sy p.y).mpr hyin]
      norm_num

/-- Claim C8: two intersection points within slop of each other in L1 distance
are ordered by SetComp in neither direction; the fuzzy equality is symmetric;
and it is not transitive: there is a chain of three points in which
consecutive points compare equal while the two end points do not. -/
theorem C8_setcomp_fuzzy (slop : ℝ) (p q : Intersect.XPoint)
    (h : Intersect.d1 (p.x - q.x) (p.y - q.y) ≤ slop) :
    ¬ (Intersect.SetComp.mk slop).lt p q ∧
    ¬ (Intersect.SetComp.mk slop).lt q p ∧
    (∀ s : Intersect.SetComp, ∀ a b : Intersect.XPoint, s.eq a b ↔ s.eq b a) ∧
    ∃ s : Intersect.SetComp, ∃ a b c : Intersect.XPoint,
      s.eq a b ∧ s.eq b c ∧ ¬ s.eq a c := by
  have hsym : ∀ s : Intersect.SetComp, ∀ a b : Intersect.XPoint,
      s.eq a b ↔ s.eq b a := by
    intro s a b
    unfold Intersect.SetComp.eq Intersect.d1
    rw [abs_sub_comm a.x b.x, abs_sub_comm a.y b.y]
  refine ⟨fun hlt => hlt.1 h, fun hlt => hlt.1 ?_, hsym, ?_⟩
  · exact (hsym (Intersect.SetComp.mk slop) q p).mpr h
  · refine ⟨Intersect.SetComp.mk 1, Intersect.XPoint.mk 0 0 0,
      Intersect.XPoint.mk 1 0 0, Intersect.XPoint.mk 2 0 0, ?_, ?_, ?_⟩ <;>
      norm_num [Intersect.SetComp.eq, Intersect.d1]

/-- Witness for C8 with slop 1 at the points (0, 0) and (1, 0). -/
theorem C8_setcomp_fuzzy_witness :
    Intersect.d1 ((Intersect.XPoint.mk 0 0 0).x - (Intersect.XPoint.mk 1 0 0).x)
        ((Intersect.XPoint.mk 0 0 0).y - (Intersect.XPoint.mk 1 0 0).y) ≤ 1 ∧
    ¬ (Intersect.SetComp.mk 1).lt (Intersect.XPoint.mk 0 0 0)
        (Intersect.XPoint.mk 1 0 0) ∧
    ¬ (Intersect.SetComp.mk 1).lt (Intersect.XPoint.mk 1 0 0)
        (Intersect.XPoint.mk 0 0 0) :=
  have hd : Intersect.d1 ((Intersect.XPoint.mk 0 0 0).x - (Intersect.XPoint.mk 1 0 0).x)
      ((Intersect.XPoint.mk 0 0 0).y - (Intersect.XPoint.mk 1 0 0).y) ≤ 1 := by
    simp [Intersect.d1]
  ⟨hd, (C8_setcomp_fuzzy 1 (Intersect.XPoint.mk 0 0 0) (Intersect.XPoint.mk 1 0 0) hd).1,
    (C8_setcomp_fuzzy 1 (Intersect.XPoint.mk 0 0 0) (Intersect.XPoint.mk 1 0 0) hd).2.1⟩

/-- Claim C2: when the Newton iteration of the inverse solver fails to
converge within maxit = 50 steps, Inverse returns the negated magnitudes
(s12, m12 and the returned a12) and the reversed azimuths as an in-band
signal; inverseFinal is a total function into plain result records, nothing
is thrown. -/
theorem C2_inverse_divergence_signal (n : NewtonOutcome)
    (h : n.converged = false) :
    Geodesic.maxit = 50 ∧
    (inverseFinal n).s12 = -(n.raw.s12) ∧
    (inverseFinal n).m12 = -(n.raw.m12) ∧
    (inverseFinal n).a12 = -(n.raw.a12) ∧
    (inverseFinal n).azi1 = reverseAzimuth n.raw.azi1 ∧
    (inverseFinal n).azi2 = reverseAzimuth n.raw.azi2 := by
  unfold inverseFinal
  rw [h]
  simp [Geodesic.maxit]

/-- Witness for C2 at a concrete diverged Newton outcome. -/
theorem C2_inverse_divergence_signal_witness :
    (NewtonOutcome.mk false 50 (InverseResult.mk 1 2 3 4 5 6 7 8)).converged = false ∧
    (inverseFinal (NewtonOutcome.mk false 50 (InverseResult.mk 1 2 3 4 5 6 7 8))).s12 = -2 := by
  refine ⟨rfl, ?_⟩
  have h := C2_inverse_divergence_signal
    (NewtonOutcome.mk false 50 (InverseResult.mk 1 2 3 4 5 6 7 8)) rfl
  rw [h.2.1]

/-- Claim C4: the GeodesicLine constructor forces cos(beta1) to the small
positive guard eps2 instead of 0 when the latitude is a pole, so the
cos(beta1) it computes is strictly positive for every valid latitude, before
and after normalisation. -/
theorem C4_pole_guard (g : Geodesic) (lat1 : ℝ) (h : |lat1| ≤ 90) :
    (|lat1| = 90 → cbeta lat1 = Geodesic.eps2) ∧
    0 < Geodesic.eps2 ∧
    0 < cbeta lat1 ∧
    0 < cbetaN g.f1 lat1 := by
  have heps : 0 < Geodesic.eps2 := by
    unfold Geodesic.eps2
    exact Real.sqrt_pos.mpr (by positivity)
  have hc : 0 < cbeta lat1 := by
    unfold cbeta
    by_cases habs : |lat1| = 90
    · rw [if_pos habs]; exact heps
    · rw [if_neg habs]
      have hlt : |lat1| < 90 := lt_of_le_of_ne h habs
      have hd : 0 < Constants.degree := by
        unfold Constants.degree
        positivity
      have habs2 : |lat1 * Constants.degree| < Real.pi / 2 := by
        rw [abs_mul, abs_of_pos hd]
        have h1 : |lat1| * Constants.degree < 90 * Constants.degree :=
          mul_lt_mul_of_pos_right hlt hd
        have h2 : 90 * Constants.degree = Real.pi / 2 := by
          unfold Constants.degree; ring
        linarith
      rcases abs_lt.mp habs2 with ⟨hl, hr⟩
      exact Real.cos_pos_of_mem_Ioo ⟨by linarith, hr⟩
  have hhyp : 0 < Math.hypot (sbeta g.f1 lat1) (cbeta lat1) := by
    unfold Math.hypot
    refine Real.sqrt_pos.mpr ?_
    have h1 := sq_nonneg (sbeta g.f1 lat1)
    nlinarith
  exact ⟨fun habs => by unfold cbeta; rw [if_pos habs], heps, hc,
    div_pos hc hhyp⟩

/-- Witness for C4 at the north pole on the unit sphere. -/
theorem C4_pole_guard_witness :
    |(90 : ℝ)| ≤ 90 ∧ cbeta 90 = Geodesic.eps2 ∧ 0 < Geodesic.eps2 :=
  ⟨by norm_num,
    (C4_pole_guard sphereUnit 90 (by norm_num)).1 (by norm_num),
    (C4_pole_guard sphereUnit 90 (by norm_num)).2.1⟩

/-- Helper: a natural number with a set bit is nonzero. -/
theorem testBit_ne_zero {n : ℕ} (i : ℕ) (h : n.testBit i = true) : n ≠ 0 := by
  intro h0
  rw [h0, Nat.zero_testBit] at h
  exact Bool.false_ne_true h

/-- Helper: a bitwise or is disjoint from c when both halves are. -/
theorem lor_land_eq_zero (a b c : ℕ) (ha : a &&& c = 0) (hb : b &&& c = 0) :
    (a ||| b) &&& c = 0 := by
  refine Nat.eq_of_testBit_eq ?_
  intro i
  have hai : (a &&& c).testBit i = false := by rw [ha]; exact Nat.zero_testBit i
  have hbi : (b &&& c).testBit i = false := by rw [hb]; exact Nat.zero_testBit i
  rw [Nat.testBit_land] at hai hbi
  rw [Nat.testBit_land, Nat.testBit_lor, Nat.zero_testBit]
  cases hc : c.testBit i
  · simp
  · rw [hc] at hai hbi
    simp only [Bool.and_true] at hai hbi
    simp [hai, hbi]

/-- Helper: the capability mask stored by the GeodesicLine constructor. -/
theorem mkGeodesicLine_caps (g : Geodesic) (lat1 lon1 azi1 : ℝ) (caps : ℕ) :
    (mkGeodesicLine g lat1 lon1 azi1 caps).caps =
      caps ||| Geodesic.LATITUDE ||| Geodesic.AZIMUTH := rfl

/-- Claim C3: a Position call that takes a distance as input (arcmode false)
on a line constructed without the DISTANCE_IN capability, and every Position
call on an uninitialised line, return the NaN diagnostic (modelled as none)
with the outputs untouched, rather than throwing. -/
theorem C3_position_nan_guard (g : Geodesic) (lat1 lon1 azi1 : ℝ) (caps : ℕ)
    (a12 : ℝ) (outmask : ℕ) (o : PosOut) (arcmode : Bool)
    (h : caps &&& Geodesic.DISTANCE_IN &&& Geodesic.OUT_ALL = 0) :
    ((mkGeodesicLine g lat1 lon1 azi1 caps).Position false a12 outmask o).2 = none ∧
    ((mkGeodesicLine g lat1 lon1 azi1 caps).Position false a12 outmask o).1 = o ∧
    (GeodesicLine.uninit.Position arcmode a12 outmask o).2 = none ∧
    (GeodesicLine.uninit.Position arcmode a12 outmask o).1 = o := by
  have hDIOA : Geodesic.DISTANCE_IN &&& Geodesic.OUT_ALL = 2048 := by decide
  have hLA : Geodesic.LATITUDE ||| Geodesic.AZIMUTH = 640 := by decide
  have h2 : caps &&& 2048 = 0 := by
    rw [Nat.land_assoc, hDIOA] at h
    exact h
  have key : (mkGeodesicLine g lat1 lon1 azi1 caps).caps &&&
      Geodesic.DISTANCE_IN &&& Geodesic.OUT_ALL = 0 := by
    rw [mkGeodesicLine_caps, Nat.land_assoc, hDIOA, Nat.lor_assoc, hLA]
    exact lor_land_eq_zero caps 640 2048 h2 (by decide)
  have hcond : ¬ ((mkGeodesicLine g lat1 lon1 azi1 caps).Init ∧
      ((false : Bool) = true ∨ (mkGeodesicLine g lat1 lon1 azi1 caps).caps &&&
        Geodesic.DISTANCE_IN &&& Geodesic.OUT_ALL ≠ 0)) := by
    rintro ⟨-, hor⟩
    rcases hor with hf | hne
    · exact Bool.false_ne_true hf
    · exact hne key
  have hcondu : ¬ (GeodesicLine.uninit.Init ∧
      (arcmode = true ∨ GeodesicLine.uninit.caps &&&
        Geodesic.DISTANCE_IN &&& Geodesic.OUT_ALL ≠ 0)) := by
    rintro ⟨hinit, -⟩
    exact hinit rfl
  constructor
  · simp only [GeodesicLine.Position]
    rw [if_neg hcond]
  constructor
  · simp only [GeodesicLine.Position]
    rw [if_neg hcond]
  constructor
  · simp only [GeodesicLine.Position]
    rw [if_neg hcondu]
  · simp only [GeodesicLine.Position]
    rw [if_neg hcondu]

/-- Witness for C3: a line with only the DISTANCE capability on the unit
sphere, asked for a position at a distance, and the uninitialised line. -/
theorem C3_position_nan_guard_witness :
    Geodesic.DISTANCE &&& Geodesic.DISTANCE_IN &&& Geodesic.OUT_ALL = 0 ∧
    ((mkGeodesicLine sphereUnit 0 0 90 Geodesic.DISTANCE).Position false 1000
      Geodesic.DISTANCE oZero).2 = none ∧
    (GeodesicLine.uninit.Position true 90 Geodesic.ALL oZero).2 = none :=
  ⟨by decide,
    (C3_position_nan_guard sphereUnit 0 0 90 Geodesic.DISTANCE 1000
      Geodesic.DISTANCE oZero true (by decide)).1,
    (C3_position_nan_guard sphereUnit 0 0 90 Geodesic.DISTANCE 90
      Geodesic.ALL oZero true (by decide)).2.2.1⟩

/-- Claim C10: the constructor ors LATITUDE and AZIMUTH into the stored
capability mask for every requested caps, so every constructed line delivers
the latitude and azimuth outputs of an arc-position call: those two outputs do
not depend on their prior values, and the call does not take the NaN exit. -/
theorem C10_caps_latitude_azimuth (g : Geodesic) (lat1 lon1 azi1 : ℝ)
    (caps : ℕ) (a12 : ℝ) (o o2 : PosOut) :
    (mkGeodesicLine g lat1 lon1 azi1 caps).caps =
      caps ||| Geodesic.LATITUDE ||| Geodesic.AZIMUTH ∧
    (mkGeodesicLine g lat1 lon1 azi1 caps).caps.testBit 7 = true ∧
    (mkGeodesicLine g lat1 lon1 azi1 caps).caps.testBit 9 = true ∧
    ((mkGeodesicLine g lat1 lon1 azi1 caps).Position true a12
        (Geodesic.LATITUDE ||| Geodesic.AZIMUTH) o).1.lat2 =
      ((mkGeodesicLine g lat1 lon1 azi1 caps).Position true a12
        (Geodesic.LATITUDE ||| Geodesic.AZIMUTH) o2).1.lat2 ∧
    ((mkGeodesicLine g lat1 lon1 azi1 caps).Position true a12
        (Geodesic.LATITUDE ||| Geodesic.AZIMUTH) o).1.azi2 =
      ((mkGeodesicLine g lat1 lon1 azi1 caps).Position true a12
        (Geodesic.LATITUDE ||| Geodesic.AZIMUTH) o2).1.azi2 ∧
    ((mkGeodesicLine g lat1 lon1 azi1 caps).Position true a12
        (Geodesic.LATITUDE ||| Geodesic.AZIMUTH) o).2 ≠ none := by
  have hL7 : Geodesic.LATITUDE.testBit 7 = true := by decide
  have hA9 : Geodesic.AZIMUTH.testBit 9 = true := by decide
  have hOA7 : Geodesic.OUT_ALL.testBit 7 = true := by decide
  have hOA9 : Geodesic.OUT_ALL.testBit 9 = true := by decide
  have tb7 : (mkGeodesicLine g lat1 lon1 azi1 caps).caps.testBit 7 = true := by
    rw [mkGeodesicLine_caps]
    simp [Nat.testBit_lor, hL7]
  have tb9 : (mkGeodesicLine g lat1 lon1 azi1 caps).caps.testBit 9 = true := by
    rw [mkGeodesicLine_caps]
    simp [Nat.testBit_lor, hA9]
  have hInit : (mkGeodesicLine g lat1 lon1 azi1 caps).Init :=
    testBit_ne_zero 7 tb7
  have hLAT : ((Geodesic.LATITUDE ||| Geodesic.AZIMUTH) &&&
      (mkGeodesicLine g lat1 lon1 azi1 caps).caps &&& Geodesic.OUT_ALL) &&&
      Geodesic.LATITUDE ≠ 0 := by
    refine testBit_ne_zero 7 ?_
    simp [Nat.testBit_land, Nat.testBit_lor, hL7, hOA7, tb7]
  have hAZI : ((Geodesic.LATITUDE ||| Geodesic.AZIMUTH) &&&
      (mkGeodesicLine g lat1 lon1 azi1 caps).caps &&& Geodesic.OUT_ALL) &&&
      Geodesic.AZIMUTH ≠ 0 := by
    refine testBit_ne_zero 9 ?_
    simp [Nat.testBit_land, Nat.testBit_lor, hA9, hOA9, tb9]
  have hmainP : (mkGeodesicLine g lat1 lon1 azi1 caps).Init ∧
      (True ∨ (mkGeodesicLine g lat1 lon1 azi1 caps).caps &&&
        Geodesic.DISTANCE_IN &&& Geodesic.OUT_ALL ≠ 0) := ⟨hInit, Or.inl trivial⟩
  refine ⟨rfl, tb7, tb9, ?_, ?_, ?_⟩
  · simp only [GeodesicLine.Position]
    rw [if_pos hmainP, if_pos hmainP]
    dsimp only
    rw [if_pos hLAT, if_pos hLAT]
  · simp only [GeodesicLine.Position]
    rw [if_pos hmainP, if_pos hmainP]
    dsimp only
    rw [if_pos hAZI, if_pos hAZI]
  · simp only [GeodesicLine.Position]
    rw [if_pos hmainP]
    dsimp only
    exact Option.some_ne_none _

/-- Claim C9: Position only writes the output parameters whose mask bits lie
in both the requested outmask and the stored capabilities; every other output
keeps its prior value, and on the NaN early exit all outputs keep their prior
values. -/
theorem C9_position_frame (L : GeodesicLine) (arcmode : Bool) (a12 : ℝ)
    (outmask : ℕ) (o : PosOut) :
    ((L.Position arcmode a12 outmask o).2 = none →
      (L.Position arcmode a12 outmask o).1 = o) ∧
    ((outmask &&& L.caps &&& Geodesic.OUT_ALL) &&& Geodesic.LATITUDE = 0 →
      (L.Position arcmode a12 outmask o).1.lat2 = o.lat2) ∧
    ((outmask &&& L.caps &&& Geodesic.OUT_ALL) &&& Geodesic.LONGITUDE = 0 →
      (L.Position arcmode a12 outmask o).1.lon2 = o.lon2) ∧
    ((outmask &&& L.caps &&& Geodesic.OUT_ALL) &&& Geodesic.AZIMUTH = 0 →
      (L.Position arcmode a12 outmask o).1.azi2 = o.azi2) ∧
    ((outmask &&& L.caps &&& Geodesic.OUT_ALL) &&& Geodesic.DISTANCE = 0 →
      (L.Position arcmode a12 outmask o).1.s12 = o.s12) ∧
    ((outmask &&& L.caps &&& Geodesic.OUT_ALL) &&& Geodesic.REDUCEDLENGTH = 0 →
      (L.Position arcmode a12 outmask o).1.m12 = o.m12) ∧
    ((outmask &&& L.caps &&& Geodesic.OUT_ALL) &&& Geodesic.GEODESICSCALE = 0 →
      (L.Position arcmode a12 outmask o).1.M12 = o.M12 ∧
      (L.Position arcmode a12 outmask o).1.M21 = o.M21) ∧
    ((outmask &&& L.caps &&& Geodesic.OUT_ALL) &&& Geodesic.AREA = 0 →
      (L.Position arcmode a12 outmask o).1.S12 = o.S12) := by
  by_cases hmain : L.Init ∧ (arcmode = true ∨
      L.caps &&& Geodesic.DISTANCE_IN &&& Geodesic.OUT_ALL ≠ 0)
  · simp only [GeodesicLine.Position]
    rw [if_pos hmain]
    dsimp only
    refine ⟨?_, ?_, ?_, ?_, ?_, ?_, ?_, ?_⟩
    · intro hx; exact absurd hx (Option.some_ne_none _)
    · intro h; rw [if_neg (not_not_intro h)]
    · intro h; rw [if_neg (not_not_intro h)]
    · intro h; rw [if_neg (not_not_intro h)]
    · intro h; rw [if_neg (not_not_intro h)]
    · intro h; rw [if_neg (not_not_intro h)]
    · intro h
      exact ⟨by rw [if_neg (not_not_intro h)], by rw [if_neg (not_not_intro h)]⟩
    · intro h; rw [if_neg (not_not_intro h)]
  · simp only [GeodesicLine.Position]
    rw [if_neg hmain]
    exact ⟨fun _ => rfl, fun _ => rfl, fun _ => rfl, fun _ => rfl, fun _ => rfl,
      fun _ => rfl, fun _ => ⟨rfl, rfl⟩, fun _ => rfl⟩

/-- Helper: the Clenshaw sum of six zero coefficients vanishes. -/
theorem SinCosSeries_zeros (sinp : Bool) (sinx cosx : ℝ) :
    Geodesic.SinCosSeries sinp sinx cosx [0, 0, 0, 0, 0, 0] = 0 := by
  simp [Geodesic.SinCosSeries]

/-- Helper: the capability mask of the C1 witness line. -/
theorem lineW_caps : lineW.caps = 1665 := rfl

/-- Helper: the C1 witness line is initialised. -/
theorem lineW_Init : lineW.Init := by
  show lineW.caps ≠ 0
  rw [lineW_caps]
  norm_num

/-- Helper: the semiminor axis copied into the C1 witness line. -/
theorem lineW_b : lineW.b = 1 := rfl

/-- Helper: the A1 remainder of the C1 witness line: the sphere has eps = 0. -/
theorem lineW_A1m1 : lineW.A1m1 = 0 := by
  have hcond1 : (Geodesic.DISTANCE ||| Geodesic.LATITUDE ||| Geodesic.AZIMUTH)
      &&& Geodesic.CAP_C1 ≠ 0 := by decide
  simp only [lineW, mkGeodesicLine]
  norm_num [hcond1, sphereUnit, Geodesic.A1m1f, Geodesic.sq]

/-- Helper: the C1 coefficients of the C1 witness line all vanish. -/
theorem lineW_C1a : lineW.C1a = [0, 0, 0, 0, 0, 0] := by
  have hcond1 : (Geodesic.DISTANCE ||| Geodesic.LATITUDE ||| Geodesic.AZIMUTH)
      &&& Geodesic.CAP_C1 ≠ 0 := by decide
  simp only [lineW, mkGeodesicLine]
  norm_num [hcond1, sphereUnit, Geodesic.C1f, Geodesic.sq]

/-- Helper: the B11 series remainder of the C1 witness line vanishes. -/
theorem lineW_B11 : lineW.B11 = 0 := by
  have hcond1 : (Geodesic.DISTANCE ||| Geodesic.LATITUDE ||| Geodesic.AZIMUTH)
      &&& Geodesic.CAP_C1 ≠ 0 := by decide
  simp only [lineW, mkGeodesicLine]
  norm_num [hcond1, sphereUnit, Geodesic.C1f, Geodesic.sq, Geodesic.SinCosSeries]

/-- Counterexample to claim C1 as stated: on the unit-sphere equatorial line,
Position with arcmode true and a12 = 90 returns 90, the input arc length in
degrees, while the distance output s12 it computes is pi / 2 metres; the
return value is therefore not the distance s12 in metres. -/
theorem C1_position_return_counterexample :
    (lineW.Position true 90 Geodesic.DISTANCE oZero).2 = some 90 ∧
    (lineW.Position true 90 Geodesic.DISTANCE oZero).1.s12 = Real.pi / 2 ∧
    (90 : ℝ) ≠ Real.pi / 2 := by
  have hmainW : lineW.Init ∧ (True ∨ lineW.caps &&& Geodesic.DISTANCE_IN &&&
      Geodesic.OUT_ALL ≠ 0) := ⟨lineW_Init, Or.inl trivial⟩
  have hdist : (Geodesic.DISTANCE &&& lineW.caps &&& Geodesic.OUT_ALL) &&&
      Geodesic.DISTANCE ≠ 0 := by
    rw [lineW_caps]; decide
  have hab : (Geodesic.DISTANCE &&& lineW.caps &&& Geodesic.OUT_ALL) &&&
      (Geodesic.DISTANCE ||| Geodesic.REDUCEDLENGTH ||| Geodesic.GEODESICSCALE)
      ≠ 0 := by
    rw [lineW_caps]; decide
  refine ⟨?_, ?_, ?_⟩
  · simp only [GeodesicLine.Position]
    rw [if_pos hmainW]
    simp
  · simp only [GeodesicLine.Position]
    rw [if_pos hmainW]
    dsimp only
    rw [if_pos hdist]
    rw [if_pos (show True ∧ (Geodesic.DISTANCE &&& lineW.caps &&&
      Geodesic.OUT_ALL) &&& (Geodesic.DISTANCE ||| Geodesic.REDUCEDLENGTH |||
      Geodesic.GEODESICSCALE) ≠ 0 from ⟨trivial, hab⟩)]
    rw [if_pos hab]
    rw [lineW_C1a, lineW_A1m1, lineW_B11, lineW_b, SinCosSeries_zeros]
    simp [Constants.degree]
    ring
  · intro heq
    have hpi := Real.pi_le_four
    nlinarith

/-- Claim C1 amended: on every successful call, Position returns the arc
length in degrees: the input a12 itself when arcmode is true, and the
computed sigma12 divided by degree when the input was a distance; the
distance in metres is delivered through the s12 output parameter instead. -/
theorem C1_position_return_amended (L : GeodesicLine) (a12 : ℝ)
    (outmask : ℕ) (o : PosOut) (arcmode : Bool)
    (h : L.Init ∧ (arcmode = true ∨
      L.caps &&& Geodesic.DISTANCE_IN &&& Geodesic.OUT_ALL ≠ 0)) :
    (arcmode = true → (L.Position arcmode a12 outmask o).2 = some a12) ∧
    (arcmode = false → (L.Position arcmode a12 outmask o).2 =
      some (positionSig12 L a12 / Constants.degree)) := by
  constructor
  · intro ha
    subst ha
    have htyped : L.Init ∧ (True ∨ L.caps &&& Geodesic.DISTANCE_IN &&&
        Geodesic.OUT_ALL ≠ 0) := ⟨h.1, Or.inl trivial⟩
    simp only [GeodesicLine.Position]
    rw [if_pos htyped]
    simp
  · intro ha
    subst ha
    simp only [GeodesicLine.Position]
    rw [if_pos h]
    simp [positionSig12]

/-- Witness for the amended C1 on the unit-sphere equatorial line in arcmode. -/
theorem C1_position_return_witness :
    (lineW.Init ∧ ((true : Bool) = true ∨
      lineW.caps &&& Geodesic.DISTANCE_IN &&& Geodesic.OUT_ALL ≠ 0)) ∧
    (lineW.Position true 90 Geodesic.DISTANCE oZero).2 = some 90 :=
  ⟨⟨lineW_Init, Or.inl rfl⟩,
    (C1_position_return_amended lineW 90 Geodesic.DISTANCE oZero true
      ⟨lineW_Init, Or.inl rfl⟩).1 rfl⟩

/-- Witness for C9 on the uninitialised line with an empty outmask. -/
theorem C9_position_frame_witness :
    ((0 : ℕ) &&& GeodesicLine.uninit.caps &&& Geodesic.OUT_ALL) &&&
      Geodesic.LATITUDE = 0 ∧
    (GeodesicLine.uninit.Position false 0 0 oZero).1.lat2 = oZero.lat2 :=
  ⟨by decide,
    (C9_position_frame GeodesicLine.uninit false 0 0 oZero).2.1 (by decide)⟩

/-- Helper: atan2 is invariant under scaling both arguments by a positive
factor. -/
theorem atan2_scale (c y x : ℝ) (hc : 0 < c) :
    Math.atan2 (c * y) (c * x) = Math.atan2 y x := by
  have hc0 : c ≠ 0 := ne_of_gt hc
  have h1 : (0 < c * x) ↔ (0 < x) := by
    constructor
    · intro h; by_contra hx; push_neg at hx; nlinarith
    · intro h; exact mul_pos hc h
  have h2 : (c * x < 0) ↔ (x < 0) := by
    constructor
    · intro h; by_contra hx; push_neg at hx; nlinarith
    · intro h; exact mul_neg_of_pos_of_neg hc h
  have h3 : (0 < c * y) ↔ (0 < y) := by
    constructor
    · intro h; by_contra hy; push_neg at hy; nlinarith
    · intro h; exact mul_pos hc h
  have h4 : (c * y < 0) ↔ (y < 0) := by
    constructor
    · intro h; by_contra hy; push_neg at hy; nlinarith
    · intro h; exact mul_neg_of_pos_of_neg hc h
  have h5 : (0 ≤ c * y) ↔ (0 ≤ y) := by
    constructor
    · intro h; by_contra hy; push_neg at hy; nlinarith
    · intro h; exact mul_nonneg hc.le h
  have hdiv : c * y / (c * x) = y / x := mul_div_mul_left y x hc0
  unfold Math.atan2
  simp only [h1, h2, h3, h4, h5, hdiv]

/-- Helper: negating both arguments of atan2 shifts the result by pi in one
of the two directions, provided the arguments are not both zero. -/
theorem atan2_neg_both (y x : ℝ) (h : ¬ (x = 0 ∧ y = 0)) :
    Math.atan2 (-y) (-x) = Math.atan2 y x + Real.pi ∨
    Math.atan2 (-y) (-x) = Math.atan2 y x - Real.pi := by
  unfold Math.atan2
  simp only [neg_pos, neg_lt_zero, neg_nonneg, neg_div_neg_eq]
  split_ifs <;>
    first
      | (refine Or.inl ?_; ring1)
      | (refine Or.inr ?_; ring1)
      | (exfalso; linarith)
      | (exact (h ⟨by linarith, by linarith⟩).elim)

/-- Helper: two nonzero parallel vectors, or two zero vectors, have atan2
values equal modulo pi. -/
theorem atan2_parallel (y x y2 x2 : ℝ) (hpar : x * y2 - y * x2 = 0)
    (hz : (x = 0 ∧ y = 0) ↔ (x2 = 0 ∧ y2 = 0)) :
    ∃ k : ℤ, Math.atan2 y2 x2 = Math.atan2 y x + Real.pi * k := by
  by_cases hxy : x = 0 ∧ y = 0
  · obtain ⟨hx2, hy2⟩ := hz.mp hxy
    refine ⟨0, ?_⟩
    rw [hxy.1, hxy.2, hx2, hy2]
    simp [Math.atan2]
  · have hxy2 : ¬ (x2 = 0 ∧ y2 = 0) := fun hc => hxy (hz.mpr hc)
    obtain ⟨c, hc0, hx2, hy2⟩ : ∃ c : ℝ, c ≠ 0 ∧ x2 = c * x ∧ y2 = c * y := by
      have heq : x * y2 = y * x2 := sub_eq_zero.mp hpar
      by_cases hx : x = 0
      · have hy : y ≠ 0 := fun hy => hxy ⟨hx, hy⟩
        have hx2z : x2 = 0 := by
          rw [hx, zero_mul] at heq
          rcases mul_eq_zero.mp heq.symm with h | h
          · exact absurd h hy
          · exact h
        refine ⟨y2 / y, ?_, ?_, ?_⟩
        · intro hcz
          have hy2z : y2 = 0 := by
            field_simp at hcz
            exact hcz
          exact hxy2 ⟨hx2z, hy2z⟩
        · rw [hx, hx2z, mul_zero]
        · field_simp
      · refine ⟨x2 / x, ?_, ?_, ?_⟩
        · intro hcz
          have hx2z : x2 = 0 := by
            field_simp at hcz
            exact hcz
          have hy2z : y2 = 0 := by
            rw [hx2z, mul_zero] at heq
            rcases mul_eq_zero.mp heq with h | h
            · exact absurd h hx
            · exact h
          exact hxy2 ⟨hx2z, hy2z⟩
        · field_simp
        · field_simp
          linear_combination heq
    rcases lt_trichotomy c 0 with hcneg | hceq | hcpos
    · have hmc : 0 < -c := by linarith
      have hrw : Math.atan2 y2 x2 = Math.atan2 (-(-c * y)) (-(-c * x)) := by
        rw [hx2, hy2]; ring_nf
      have hnz : ¬ (-c * x = 0 ∧ -c * y = 0) := by
        rintro ⟨ha, hb⟩
        have hxz : x = 0 := by
          rcases mul_eq_zero.mp ha with h | h
          · exact absurd (neg_eq_zero.mp h) hc0
          · exact h
        have hyz : y = 0 := by
          rcases mul_eq_zero.mp hb with h | h
          · exact absurd (neg_eq_zero.mp h) hc0
          · exact h
        exact hxy ⟨hxz, hyz⟩
      rcases atan2_neg_both (-c * y) (-c * x) hnz with hpm | hpm
      · refine ⟨1, ?_⟩
        rw [hrw, hpm, atan2_scale (-c) y x hmc]
        push_cast
        ring
      · refine ⟨-1, ?_⟩
        rw [hrw, hpm, atan2_scale (-c) y x hmc]
        push_cast
        ring
    · exact absurd hceq hc0
    · refine ⟨0, ?_⟩
      rw [hx2, hy2, atan2_scale c y x hcpos]
      push_cast
      ring

/-- Helper: the azimuth outputs built from parallel sine and cosine pairs
differ by a multiple of 180 degrees. -/
theorem azi_pair_mod (fs fc fs2 fc2 : ℝ)
    (hpar : fc * (-fs2) - (-fs) * fc2 = 0)
    (hz : (fc = 0 ∧ fs = 0) ↔ (fc2 = 0 ∧ fs2 = 0)) :
    ∃ k : ℤ, (0 - Math.atan2 (-fs2) fc2 / Constants.degree) =
      (0 - Math.atan2 (-fs) fc / Constants.degree) + 180 * k := by
  have hz2 : (fc = 0 ∧ -fs = 0) ↔ (fc2 = 0 ∧ -fs2 = 0) := by
    simp only [neg_eq_zero]
    exact hz
  obtain ⟨k, hk⟩ := atan2_parallel (-fs) fc (-fs2) fc2 hpar hz2
  refine ⟨-k, ?_⟩
  rw [hk]
  have hpi := Real.pi_ne_zero
  unfold Constants.degree
  field_simp
  ring

/-- Helper: sbeta is odd in the latitude. -/
theorem sbeta_neg (f1 lat : ℝ) : sbeta f1 (-lat) = -(sbeta f1 lat) := by
  unfold sbeta
  rw [neg_mul, Real.sin_neg]
  ring

/-- Helper: cbeta is even in the latitude. -/
theorem cbeta_neg (lat : ℝ) : cbeta (-lat) = cbeta lat := by
  unfold cbeta
  rw [abs_neg, neg_mul, Real.cos_neg]

/-- Helper: hypot is even in its first argument. -/
theorem hypot_neg_left (x y : ℝ) : Math.hypot (-x) y = Math.hypot x y := by
  unfold Math.hypot
  rw [neg_sq]

/-- Helper: the normalised reduced-latitude sine is odd in the latitude. -/
theorem sbetaN_neg (f1 lat : ℝ) : sbetaN f1 (-lat) = -(sbetaN f1 lat) := by
  unfold sbetaN
  rw [sbeta_neg, cbeta_neg, hypot_neg_left, neg_div]

/-- Helper: the normalised reduced-latitude cosine is even in the latitude. -/
theorem cbetaN_neg (f1 lat : ℝ) : cbetaN f1 (-lat) = cbetaN f1 lat := by
  unfold cbetaN
  rw [sbeta_neg, cbeta_neg, hypot_neg_left]

/-- Helper: at equal canonical latitudes the two azimuth sines coincide. -/
theorem coreSalp2_eq (f1 A lam : ℝ) :
    coreSalp2 f1 A A lam = coreSalp1 f1 A A lam := rfl

/-- Helper: at equal canonical latitudes the two azimuth cosines are
opposite. -/
theorem coreCalp2_eq (f1 A lam : ℝ) :
    coreCalp2 f1 A A lam = -(coreCalp1 f1 A A lam) := by
  unfold coreCalp1 coreCalp2
  ring

/-- Helper: at opposite canonical latitudes the two azimuth sines coincide. -/
theorem coreSalp2_negpair (f1 A lam : ℝ) :
    coreSalp2 f1 A (-A) lam = coreSalp1 f1 A (-A) lam := by
  unfold coreSalp1 coreSalp2
  rw [cbetaN_neg]

/-- Helper: at opposite canonical latitudes the two azimuth cosines
coincide. -/
theorem coreCalp2_negpair (f1 A lam : ℝ) :
    coreCalp2 f1 A (-A) lam = coreCalp1 f1 A (-A) lam := by
  unfold coreCalp1 coreCalp2
  rw [sbetaN_neg, cbetaN_neg]
  ring

/-- Helper: the first azimuth sine vanishes when the longitude sine does. -/
theorem coreSalp1_of_sin_zero (f1 a b lam : ℝ)
    (h : Real.sin (lam * Constants.degree) = 0) :
    coreSalp1 f1 a b lam = 0 := by
  unfold coreSalp1
  rw [h, mul_zero]

/-- Helper: the second azimuth sine vanishes when the longitude sine does. -/
theorem coreSalp2_of_sin_zero (f1 a b lam : ℝ)
    (h : Real.sin (lam * Constants.degree) = 0) :
    coreSalp2 f1 a b lam = 0 := by
  unfold coreSalp2
  rw [h, mul_zero]

/-- Helper: multiplying by the sign of a real recovers its absolute value. -/
theorem signIf_mul_abs (v : ℝ) : (if 0 ≤ v then (1 : ℝ) else -1) * v = |v| := by
  split_ifs with h
  · rw [one_mul, abs_of_nonneg h]
  · rw [abs_of_neg (lt_of_not_le h)]
    ring

/-- Helper: AngNormalize maps angles of magnitude at most 180 into
[-180, 180). -/
theorem angNorm_bounds (x : ℝ) (h : |x| ≤ 180) :
    -180 ≤ Geodesic.AngNormalize x ∧ Geodesic.AngNormalize x < 180 := by
  rcases abs_le.mp h with ⟨ha, hb⟩
  unfold Geodesic.AngNormalize
  split_ifs
  · constructor <;> linarith
  · constructor <;> linarith
  · constructor <;> linarith

/-- Helper: normalising a negated angle from (-360, 360) either negates the
normalised angle or hits the -180 fixed point on both sides. -/
theorem angNorm_neg (u : ℝ) :
    Geodesic.AngNormalize (-u) = -(Geodesic.AngNormalize u) ∨
    (Geodesic.AngNormalize u = -180 ∧ Geodesic.AngNormalize (-u) = -180) := by
  unfold Geodesic.AngNormalize
  split_ifs <;>
    first
      | (refine Or.inl ?_; ring1)
      | (exfalso; linarith)
      | (exact Or.inr ⟨by linarith, by linarith⟩)

/-- Helper: the canonical first latitude of an inverse problem. -/
theorem inverseCanon_lat1c (a b c d : ℝ) :
    (inverseCanon a b c d).lat1c =
      (if (if |a| < |c| then c else a) < 0 then (1 : ℝ) else -1) *
        (if |a| < |c| then c else a) := rfl

/-- Helper: the canonical second latitude of an inverse problem. -/
theorem inverseCanon_lat2c (a b c d : ℝ) :
    (inverseCanon a b c d).lat2c =
      (if (if |a| < |c| then c else a) < 0 then (1 : ℝ) else -1) *
        (if |a| < |c| then a else c) := rfl

/-- Helper: the canonical longitude difference of an inverse problem. -/
theorem inverseCanon_lam12 (a b c d : ℝ) :
    (inverseCanon a b c d).lam12 =
      (if 0 ≤ Geodesic.AngNormalize
          (Geodesic.AngNormalize d - Geodesic.AngNormalize b) then (1 : ℝ)
        else -1) *
        Geodesic.AngNormalize
          (Geodesic.AngNormalize d - Geodesic.AngNormalize b) := rfl

/-- Helper: the longitude sign of an inverse problem. -/
theorem inverseCanon_lonsign (a b c d : ℝ) :
    (inverseCanon a b c d).lonsign =
      (if 0 ≤ Geodesic.AngNormalize
          (Geodesic.AngNormalize d - Geodesic.AngNormalize b) then (1 : ℝ)
        else -1) := rfl

/-- Helper: the latitude sign of an inverse problem. -/
theorem inverseCanon_latsign (a b c d : ℝ) :
    (inverseCanon a b c d).latsign =
      (if (if |a| < |c| then c else a) < 0 then (1 : ℝ) else -1) := rfl

/-- Helper: the swap flag of an inverse problem. -/
theorem inverseCanon_swapped (a b c d : ℝ) :
    (inverseCanon a b c d).swapped = (|a| < |c|) := rfl

/-- Helper: the longitude sign is 1 or -1. -/
theorem inverseCanon_lonsign_cases (a b c d : ℝ) :
    (inverseCanon a b c d).lonsign = 1 ∨ (inverseCanon a b c d).lonsign = -1 := by
  rw [inverseCanon_lonsign]
  split_ifs
  · exact Or.inl rfl
  · exact Or.inr rfl

/-- Helper: the latitude sign is 1 or -1. -/
theorem inverseCanon_latsign_cases (a b c d : ℝ) :
    (inverseCanon a b c d).latsign = 1 ∨ (inverseCanon a b c d).latsign = -1 := by
  rw [inverseCanon_latsign]
  split_ifs <;> first | exact Or.inl rfl | exact Or.inr rfl

/-- Helper: the first azimuth of the inverse model. -/
theorem InverseModel_azi1 (g : Geodesic) (a b c d : ℝ) :
    (InverseModel g a b c d).azi1 = inverseAzi1 g (inverseCanon a b c d) := rfl

/-- Helper: the second azimuth of the inverse model. -/
theorem InverseModel_azi2 (g : Geodesic) (a b c d : ℝ) :
    (InverseModel g a b c d).azi2 = inverseAzi2 g (inverseCanon a b c d) := rfl

/-- Helper: the distance of the inverse model. -/
theorem InverseModel_s12 (g : Geodesic) (a b c d : ℝ) :
    (InverseModel g a b c d).s12 =
      g.b * coreSig12 g.f1 (inverseCanon a b c d).lat1c
        (inverseCanon a b c d).lat2c (inverseCanon a b c d).lam12 := rfl

/-- Helper: the canonical latitudes of an inverse problem and of the swapped
problem agree, and the swap flags and latitude signs fall into one of four
scenarios. -/
theorem lat_canon_rel (lat1 lon1 lat2 lon2 : ℝ) :
    (inverseCanon lat2 lon2 lat1 lon1).lat1c =
      (inverseCanon lat1 lon1 lat2 lon2).lat1c ∧
    (inverseCanon lat2 lon2 lat1 lon1).lat2c =
      (inverseCanon lat1 lon1 lat2 lon2).lat2c ∧
    ((inverseCanon lat1 lon1 lat2 lon2).swapped ∧
        ¬ (inverseCanon lat2 lon2 lat1 lon1).swapped ∧
        (inverseCanon lat2 lon2 lat1 lon1).latsign =
          (inverseCanon lat1 lon1 lat2 lon2).latsign ∨
      ¬ (inverseCanon lat1 lon1 lat2 lon2).swapped ∧
        (inverseCanon lat2 lon2 lat1 lon1).swapped ∧
        (inverseCanon lat2 lon2 lat1 lon1).latsign =
          (inverseCanon lat1 lon1 lat2 lon2).latsign ∨
      ¬ (inverseCanon lat1 lon1 lat2 lon2).swapped ∧
        ¬ (inverseCanon lat2 lon2 lat1 lon1).swapped ∧
        (inverseCanon lat2 lon2 lat1 lon1).latsign =
          (inverseCanon lat1 lon1 lat2 lon2).latsign ∧
        (inverseCanon lat1 lon1 lat2 lon2).lat2c =
          (inverseCanon lat1 lon1 lat2 lon2).lat1c ∨
      ¬ (inverseCanon lat1 lon1 lat2 lon2).swapped ∧
        ¬ (inverseCanon lat2 lon2 lat1 lon1).swapped ∧
        (inverseCanon lat2 lon2 lat1 lon1).latsign =
          -(inverseCanon lat1 lon1 lat2 lon2).latsign ∧
        (inverseCanon lat1 lon1 lat2 lon2).lat2c =
          -(inverseCanon lat1 lon1 lat2 lon2).lat1c) := by
  simp only [inverseCanon_lat1c, inverseCanon_lat2c, inverseCanon_latsign,
    inverseCanon_swapped]
  rcases lt_trichotomy |lat1| |lat2| with hL | hL | hL
  · have hL2 : ¬ |lat2| < |lat1| := lt_asymm hL
    simp only [if_pos hL, if_neg hL2]
    exact ⟨trivial, trivial, Or.inl ⟨hL, hL2, trivial⟩⟩
  · have hA : ¬ |lat1| < |lat2| := by rw [hL]; exact lt_irrefl _
    have hB : ¬ |lat2| < |lat1| := by rw [hL]; exact lt_irrefl _
    simp only [if_neg hA, if_neg hB]
    by_cases he : lat2 = lat1
    · subst he
      exact ⟨rfl, rfl, Or.inr (Or.inr (Or.inl ⟨hA, hB, rfl, rfl⟩))⟩
    · have h12 : lat1 = -lat2 := by
        rcases abs_eq_abs.mp hL with h | h
        · exact absurd h.symm he
        · exact h
      have h21 : lat2 = -lat1 := by rw [h12]; ring
      have hz : lat1 ≠ 0 := by
        intro h0
        apply he
        rw [h21, h0]
        norm_num
      rcases lt_or_gt_of_ne hz with hneg | hpos
      · have hl2pos : ¬ lat2 < 0 := by rw [h21]; linarith
        simp only [if_pos hneg, if_neg hl2pos]
        exact ⟨by rw [h21]; ring, by rw [h21]; ring,
          Or.inr (Or.inr (Or.inr ⟨hA, hB, by norm_num, by rw [h21]; ring⟩))⟩
      · have hl2neg : lat2 < 0 := by rw [h21]; linarith
        have hl1nn : ¬ lat1 < 0 := by linarith
        simp only [if_pos hl2neg, if_neg hl1nn]
        exact ⟨by rw [h21]; ring, by rw [h21]; ring,
          Or.inr (Or.inr (Or.inr ⟨hA, hB, by norm_num, by rw [h21]; ring⟩))⟩
  · have hL2 : ¬ |lat1| < |lat2| := lt_asymm hL
    simp only [if_pos hL, if_neg hL2]
    exact ⟨trivial, trivial, Or.inr (Or.inl ⟨hL2, hL, trivial⟩)⟩

/-- Helper: the canonical longitude differences of an inverse problem and of
the swapped problem agree, and the longitude signs are opposite unless the
sine of the canonical longitude difference vanishes. -/
theorem lon_canon_rel (lat1 lon1 lat2 lon2 : ℝ) :
    (inverseCanon lat2 lon2 lat1 lon1).lam12 =
      (inverseCanon lat1 lon1 lat2 lon2).lam12 ∧
    ((inverseCanon lat2 lon2 lat1 lon1).lonsign =
        -(inverseCanon lat1 lon1 lat2 lon2).lonsign ∨
      Real.sin ((inverseCanon lat1 lon1 lat2 lon2).lam12 *
        Constants.degree) = 0) := by
  simp only [inverseCanon_lam12, inverseCanon_lonsign]
  have harg : Geodesic.AngNormalize lon1 - Geodesic.AngNormalize lon2 =
      -(Geodesic.AngNormalize lon2 - Geodesic.AngNormalize lon1) := by ring
  rw [harg]
  rcases angNorm_neg (Geodesic.AngNormalize lon2 - Geodesic.AngNormalize lon1)
    with hn | ⟨hn1, hn2⟩
  · rw [hn]
    set u := Geodesic.AngNormalize
      (Geodesic.AngNormalize lon2 - Geodesic.AngNormalize lon1) with hu
    constructor
    · rw [signIf_mul_abs, signIf_mul_abs, abs_neg]
    · rcases lt_trichotomy u 0 with h | h | h
      · left
        rw [if_pos (by linarith : (0:ℝ) ≤ -u), if_neg (not_le.mpr h)]
        norm_num
      · right
        rw [h]
        simp
      · left
        rw [if_neg (by push_neg; linarith : ¬ (0:ℝ) ≤ -u), if_pos h.le]
  · rw [hn1, hn2]
    refine ⟨rfl, Or.inr ?_⟩
    have h180 : (if 0 ≤ (-180 : ℝ) then (1 : ℝ) else -1) * (-180) = 180 := by
      norm_num
    rw [h180]
    have hpi : (180 : ℝ) * Constants.degree = Real.pi := by
      unfold Constants.degree
      ring
    rw [hpi]
    exact Real.sin_pi

/-- Helper: the first azimuth of the swapped call and the second azimuth of
the original call differ by a multiple of 180 degrees, given the relations
between the two canonicalisations. -/
theorem azi_swap_core (g : Geodesic) (cA cB : CanonInverse)
    (hlat1 : cB.lat1c = cA.lat1c) (hlat2 : cB.lat2c = cA.lat2c)
    (hlam : cB.lam12 = cA.lam12)
    (hsA : cA.lonsign = 1 ∨ cA.lonsign = -1)
    (hsB : cB.lonsign = 1 ∨ cB.lonsign = -1)
    (htA : cA.latsign = 1 ∨ cA.latsign = -1)
    (hsign : cB.lonsign = -cA.lonsign ∨
      Real.sin (cA.lam12 * Constants.degree) = 0)
    (hswap : cA.swapped ∧ ¬ cB.swapped ∧ cB.latsign = cA.latsign ∨
      ¬ cA.swapped ∧ cB.swapped ∧ cB.latsign = cA.latsign ∨
      ¬ cA.swapped ∧ ¬ cB.swapped ∧ cB.latsign = cA.latsign ∧
        cA.lat2c = cA.lat1c ∨
      ¬ cA.swapped ∧ ¬ cB.swapped ∧ cB.latsign = -cA.latsign ∧
        cA.lat2c = -cA.lat1c) :
    ∃ k : ℤ, inverseAzi1 g cB = inverseAzi2 g cA + 180 * k := by
  have hA0 : cA.lonsign ≠ 0 := by rcases hsA with h | h <;> rw [h] <;> norm_num
  have hB0 : cB.lonsign ≠ 0 := by rcases hsB with h | h <;> rw [h] <;> norm_num
  have htA0 : cA.latsign ≠ 0 := by rcases htA with h | h <;> rw [h] <;> norm_num
  unfold inverseAzi1 inverseAzi2
  rcases hswap with ⟨hsa, hsb, ht⟩ | ⟨hsa, hsb, ht⟩ | ⟨hsa, hsb, ht, hll⟩ |
    ⟨hsa, hsb, ht, hll⟩
  · rw [if_neg hsb, if_neg hsb, if_pos hsa, if_pos hsa, hlat1, hlat2, hlam, ht]
    apply azi_pair_mod
    · rcases hsign with hs | hs
      · rw [hs]; ring
      · rw [coreSalp1_of_sin_zero g.f1 cA.lat1c cA.lat2c cA.lam12 hs]; ring
    · simp [mul_eq_zero, neg_eq_zero, hA0, hB0, htA0]
  · rw [if_pos hsb, if_pos hsb, if_neg hsa, if_neg hsa, hlat1, hlat2, hlam, ht]
    apply azi_pair_mod
    · rcases hsign with hs | hs
      · rw [hs]; ring
      · rw [coreSalp2_of_sin_zero g.f1 cA.lat1c cA.lat2c cA.lam12 hs]; ring
    · simp [mul_eq_zero, neg_eq_zero, hA0, hB0, htA0]
  · rw [if_neg hsb, if_neg hsb, if_neg hsa, if_neg hsa, hlat1, hlat2, hlam, ht,
      hll, coreSalp2_eq, coreCalp2_eq]
    apply azi_pair_mod
    · rcases hsign with hs | hs
      · rw [hs]; ring
      · rw [coreSalp1_of_sin_zero g.f1 cA.lat1c cA.lat1c cA.lam12 hs]; ring
    · simp [mul_eq_zero, neg_eq_zero, hA0, hB0, htA0]
  · rw [if_neg hsb, if_neg hsb, if_neg hsa, if_neg hsa, hlat1, hlat2, hlam, ht,
      hll, coreSalp2_negpair, coreCalp2_negpair]
    apply azi_pair_mod
    · rcases hsign with hs | hs
      · rw [hs]; ring
      · rw [coreSalp1_of_sin_zero g.f1 cA.lat1c (-cA.lat1c) cA.lam12 hs]; ring
    · simp [mul_eq_zero, neg_eq_zero, hA0, hB0, htA0]

/-- Helper: the first azimuth of the swapped inverse call equals the second
azimuth of the original call modulo 180 degrees. -/
theorem inverse_azi_swap (g : Geodesic) (lat1 lon1 lat2 lon2 : ℝ) :
    ∃ k : ℤ, (InverseModel g lat2 lon2 lat1 lon1).azi1 =
      (InverseModel g lat1 lon1 lat2 lon2).azi2 + 180 * k := by
  obtain ⟨hl1, hl2, hsw⟩ := lat_canon_rel lat1 lon1 lat2 lon2
  obtain ⟨hlam, hsign⟩ := lon_canon_rel lat1 lon1 lat2 lon2
  rw [InverseModel_azi1, InverseModel_azi2]
  exact azi_swap_core g (inverseCanon lat1 lon1 lat2 lon2)
    (inverseCanon lat2 lon2 lat1 lon1) hl1 hl2 hlam
    (inverseCanon_lonsign_cases lat1 lon1 lat2 lon2)
    (inverseCanon_lonsign_cases lat2 lon2 lat1 lon1)
    (inverseCanon_latsign_cases lat1 lon1 lat2 lon2) hsign hsw

/-- Claim C6: for every pair of points the inverse solution is symmetric:
the distance s12 is unchanged when the endpoints are exchanged, and the two
azimuths of the swapped call are the azimuths of the original call
interchanged, modulo 180 degrees. -/
theorem C6_inverse_symmetry (g : Geodesic) (lat1 lon1 lat2 lon2 : ℝ) :
    (InverseModel g lat1 lon1 lat2 lon2).s12 =
      (InverseModel g lat2 lon2 lat1 lon1).s12 ∧
    (∃ k : ℤ, (InverseModel g lat2 lon2 lat1 lon1).azi1 =
      (InverseModel g lat1 lon1 lat2 lon2).azi2 + 180 * k) ∧
    (∃ k : ℤ, (InverseModel g lat2 lon2 lat1 lon1).azi2 =
      (InverseModel g lat1 lon1 lat2 lon2).azi1 + 180 * k) := by
  refine ⟨?_, inverse_azi_swap g lat1 lon1 lat2 lon2, ?_⟩
  · obtain ⟨hl1, hl2, hsw⟩ := lat_canon_rel lat1 lon1 lat2 lon2
    obtain ⟨hlam, hsign⟩ := lon_canon_rel lat1 lon1 lat2 lon2
    rw [InverseModel_s12, InverseModel_s12, hl1, hl2, hlam]
  · obtain ⟨k, hk⟩ := inverse_azi_swap g lat2 lon2 lat1 lon1
    refine ⟨-k, ?_⟩
    push_cast
    linarith

end
